import Mathlib

/-!
Shallow embedding of the weather-proxy service in `src/main.py` (FastAPI app
"Yandex Weather API"): the cache, the four text normalizer helpers, the
condition-code mapper, the two page extractors (`parse_weather`,
`parse_month`) and the two endpoint handlers.

Modelling conventions:
* Python `Optional[str]` becomes `Option String`; Python `None` is `none`.
  Python truthiness tests `if not text:` on an optional string are modelled
  as "`none` or the empty string".
* The BeautifulSoup DOM query layer is an external collaborator. A page is
  modelled as the structured result of the fixed queries the source performs
  (each `select_one` result is an `Option` field, each `select` result a
  `List` of the extracted texts), so the extractor logic itself — fallback
  strategy order, placeholder skipping, positional indexing, normalization —
  is embedded faithfully.
* `re.search(r'[+-]?\d+°', …)` and `re.search(r'\d+', …)` are embedded as
  explicit leftmost scans with greedy digit runs, the documented semantics of
  the Python engine on these patterns; `\d` is modelled as ASCII digits.
* Python `str.lower()` is modelled on the alphabets the mapper's patterns
  use: ASCII letters and the Cyrillic block А..Я plus Ё.
* timestamps are natural numbers of seconds; `CACHE_TTL = timedelta(minutes=15)`
  becomes `900`. Latitude/longitude are opaque decidable-equality
  identifiers (the spec: "opaque floating-point identifiers — no range
  validation"), modelled as `Int`.
* The mutable module-level `_cache` dict becomes explicit state passing: a
  handler takes the cache and the clock readings of its successive
  `datetime.now` calls (`t1 ≤ t2 ≤ t3 ≤ t4` in a sequential run) and returns
  the response together with the new cache.
-/

namespace YaWeather

/-- Holds when the first list is an initial segment of the second. -/
def isLead : List Char → List Char → Bool
  | [], _ => true
  | _ :: _, [] => false
  | a :: as, b :: bs => a == b && isLead as bs

/-- Python's substring test `needle in hay` on character lists. -/
def containsSeg (needle : List Char) : List Char → Bool
  | [] => needle.isEmpty
  | h :: t => isLead needle (h :: t) || containsSeg needle t

/-- Python `str.lower()` restricted to ASCII letters and the Cyrillic
letters А..Я and Ё — the only characters the condition patterns contain. -/
def pyLower (c : Char) : Char :=
  if 'A' ≤ c ∧ c ≤ 'Z' then Char.ofNat (c.toNat + 32)
  else if 'А' ≤ c ∧ c ≤ 'Я' then Char.ofNat (c.toNat + 32)
  else if c = 'Ё' then 'ё'
  else c

/-- Python substring test `p in t` for a pattern given as a string literal. -/
def hasSub (p : String) (t : List Char) : Bool := containsSeg p.data t

/-! ## Cache (`src/main.py` lines 13-14, 32-44) -/

/-- The source's `CACHE_TTL = timedelta(minutes=15)`, in seconds. -/
def CACHE_TTL : Nat := 15 * 60

/-- The tuple key `(scope, lat, lon)` of the module cache dict. -/
structure CacheKey where
  scope : String
  lat : Int
  lon : Int
deriving DecidableEq

/-- A stored cache value `{"ts": …, "data": …}`. -/
structure CacheEntry (α : Type) where
  ts : Nat
  data : α
deriving DecidableEq

/-- The module-level `_cache` dict, as a total lookup function. -/
def Cache (α : Type) : Type := CacheKey → Option (CacheEntry α)

/-- The initial empty `_cache = {}`. -/
def emptyCache {α : Type} : Cache α := fun _ => none

/-- Lookup `_get_cached(scope, lat, lon)`: absent entry, or entry older than
`CACHE_TTL`, yields `none`; otherwise the stored data. `now` is the value
of `datetime.now(timezone.utc)` at the call. -/
def _get_cached {α : Type} (c : Cache α) (now : Nat) (scope : String)
    (lat lon : Int) : Option α :=
  match c ⟨scope, lat, lon⟩ with
  | none => none
  | some e => if now - e.ts > CACHE_TTL then none else some e.data

/-- Store `_set_cached(scope, lat, lon, data)`: unconditional overwrite of the
key's entry with a fresh timestamp. -/
def _set_cached {α : Type} (c : Cache α) (now : Nat) (scope : String)
    (lat lon : Int) (data : α) : Cache α :=
  fun k => if k = ⟨scope, lat, lon⟩ then some ⟨now, data⟩ else c k

/-! ## Normalizer helpers (`src/main.py` lines 47-75) -/

/-- One attempt of `[+-]?\d+°` at the head of `l`, without the optional
sign: a greedy nonempty ASCII-digit run followed by the degree glyph. -/
def digitsDeg (l : List Char) : Option (List Char) :=
  let ds := l.takeWhile Char.isDigit
  if ds.isEmpty then none
  else
    match l.dropWhile Char.isDigit with
    | '°' :: _ => some (ds ++ ['°'])
    | _ => none

/-- One attempt of `[+-]?\d+°` anchored at the head of `l`. When the head
is a sign the digit run must follow it (the signless alternative would have
to start with a digit, which the sign character is not). -/
def matchTok : List Char → Option (List Char)
  | [] => none
  | c :: t =>
    if c = '+' ∨ c = '-' then (digitsDeg t).map (fun m => c :: m)
    else digitsDeg (c :: t)

/-- Search `re.search(r'[+-]?\d+°', …)`: try each start position left to right. -/
def reSearchTemp : List Char → Option (List Char)
  | [] => none
  | c :: t =>
    match matchTok (c :: t) with
    | some r => some r
    | none => reSearchTemp t

/-- Search `re.search(r'\d+', …)`: the leftmost maximal ASCII-digit run. -/
def reSearchDigits : List Char → Option (List Char)
  | [] => none
  | c :: t => if c.isDigit then some ((c :: t).takeWhile Char.isDigit) else reSearchDigits t

/-- Helper `_extract_temperature`: falsy input is absent, else the first
`[+-]?\d+°` match, verbatim. -/
def _extract_temperature : Option String → Option String
  | none => none
  | some s => if s = "" then none else (reSearchTemp s.data).map String.mk

/-- Helper `_extract_wind`: falsy input is absent, else the input stripped. -/
def _extract_wind : Option String → Option String
  | none => none
  | some s => if s = "" then none else some s.trim

/-- Helper `_extract_pressure`: falsy input is absent, else the first digit run. -/
def _extract_pressure : Option String → Option String
  | none => none
  | some s => if s = "" then none else (reSearchDigits s.data).map String.mk

/-- Helper `_extract_humidity`: same body as `_extract_pressure` in the source. -/
def _extract_humidity : Option String → Option String
  | none => none
  | some s => if s = "" then none else (reSearchDigits s.data).map String.mk

/-! ## Condition mapping (`src/main.py` lines 78-119) -/

/-- The `elif` chain of `_map_condition_to_code` on the lowercased text. -/
def condCode (t : List Char) : String :=
  if hasSub "ясно" t then "clear"
  else if hasSub "малооблачно" t || hasSub "переменная облачность" t then "partly-cloudy"
  else if hasSub "облачно с прояснениями" t then "cloudy-and-clear"
  else if hasSub "облачно" t then "cloudy"
  else if hasSub "пасмурно" t then "overcast"
  else if hasSub "небольшой дождь" t || hasSub "слабый дождь" t then "light-rain"
  else if hasSub "дождь" t then "rain"
  else if hasSub "ливень" t || hasSub "сильный дождь" t then "heavy-rain"
  else if hasSub "гроза" t then "thunderstorm"
  else if hasSub "небольшой снег" t || hasSub "слабый снег" t then "light-snow"
  else if hasSub "снег" t then "snow"
  else if hasSub "метель" t || hasSub "сильный снег" t then "heavy-snow"
  else if hasSub "туман" t then "fog"
  else if hasSub "мгла" t || hasSub "дымка" t then "haze"
  else if hasSub "морось" t then "drizzle"
  else if hasSub "град" t then "hail"
  else "unknown"

/-- Mapper `_map_condition_to_code`: falsy input yields `None`; otherwise the text
is lowercased and run through the substring rule chain. -/
def _map_condition_to_code : Option String → Option String
  | none => none
  | some s => if s = "" then none else some (condCode (s.data.map pyLower))

/-! ## Current-conditions extractor (`src/main.py` lines 122-177) -/

/-- Texts of the three optional temperature sub-spans (sign, value, degree). -/
structure TempFrag where
  sign : Option String
  value : Option String
  degree : Option String
deriving DecidableEq

/-- The located fact block, as the results of the fixed queries the source
runs against it: optional leaf texts plus the `get_text(strip=True)` texts
of the details list items. -/
structure FactWrap where
  temperature_block : Option TempFrag
  condition_warning : Option String
  feels : Option String
  yesterday_full : Option String
  yesterday_short : Option String
  details_items : List String
deriving DecidableEq

/-- A current-conditions page, as the results of the three layered lookup
strategies: (a) the exact structural marker, (b) a container whose marker
contains the stable substring, (c) the temperature-value leaf's nearest
container ancestor. -/
structure FactPage where
  byExactMarker : Option FactWrap
  bySubstringMarker : Option FactWrap
  byTempLeafParent : Option FactWrap
deriving DecidableEq

/-- The dict returned by `parse_weather`. -/
structure WeatherRecord where
  temperature : Option String
  condition : Option String
  condition_text : Option String
  feels_like : Option String
  yesterday_full : Option String
  yesterday_short : Option String
  wind : Option String
  pressure : Option String
  humidity : Option String
  water_temperature : Option String
deriving DecidableEq

/-- The `detail_at` closure: `details_items[index]` text or `None` past the
end (the source catches `IndexError`). -/
def detail_at (items : List String) (i : Nat) : Option String := items.get? i

/-- Lines 140-149: concatenate the sign, value and degree texts (absent
sub-spans contribute the empty string), strip, and turn `""` into `None`
(the trailing `or None`). -/
def tempConcat (tb : Option TempFrag) : Option String :=
  let s := (((tb.bind TempFrag.sign).getD "") ++ ((tb.bind TempFrag.value).getD "")
      ++ ((tb.bind TempFrag.degree).getD "")).trim
  if s = "" then none else some s

/-- Lines 136-177: build the current-conditions record from a located block. -/
def mkWeatherRecord (w : FactWrap) : WeatherRecord :=
  let condition_text := w.condition_warning.map String.trim
  { temperature := tempConcat w.temperature_block
    condition := _map_condition_to_code condition_text
    condition_text := condition_text
    feels_like := _extract_temperature (w.feels.map String.trim)
    yesterday_full := _extract_temperature (w.yesterday_full.map String.trim)
    yesterday_short := _extract_temperature (w.yesterday_short.map String.trim)
    wind := _extract_wind (detail_at w.details_items 0)
    pressure := _extract_pressure (detail_at w.details_items 1)
    humidity := _extract_humidity (detail_at w.details_items 2)
    water_temperature := detail_at w.details_items 3 }

/-- Lines 127-132: the three `if not wrap` fallbacks in order. -/
def findWrap (p : FactPage) : Option FactWrap :=
  match p.byExactMarker with
  | some w => some w
  | none =>
    match p.bySubstringMarker with
    | some w => some w
    | none => p.byTempLeafParent

/-- Extractor `parse_weather`: locate the fact block by the layered strategies or
raise `ValueError("Weather block not found in the page")`. -/
def parse_weather (p : FactPage) : Except String WeatherRecord :=
  match findWrap p with
  | none => Except.error "Weather block not found in the page"
  | some w => Except.ok (mkWeatherRecord w)

/-! ## Month extractor (`src/main.py` lines 180-236) -/

/-- The date link: its optional `aria-label` attribute and its visible text. -/
structure DayLink where
  ariaLabel : Option String
  text : String
deriving DecidableEq

/-- One temperature-number span: its class list and stripped text. -/
structure TempSpan where
  classes : List String
  text : String
deriving DecidableEq

/-- The optional detailed-info panel: feels-like text and the
`get_text(" ", strip=True)` texts of the params list items. -/
structure MonthDetails where
  feels : Option String
  params : List String
deriving DecidableEq

/-- One day block, as the results of the queries lines 192-211 run on it:
the enclosing list item's class list (absent when there is no `li` parent),
the date link, the temperature spans, and the details panel. -/
structure DayBlock where
  liClasses : Option (List String)
  link : Option DayLink
  tempSpans : List TempSpan
  details : Option MonthDetails
deriving DecidableEq

/-- One day entry of the `parse_month` result. -/
structure DayRec where
  title : Option String
  label : Option String
  day_temp : Option String
  night_temp : Option String
  feels_like : Option String
  pressure : Option String
  humidity : Option String
  wind : Option String
  water_temperature : Option String
deriving DecidableEq

/-- Python `a or b` on optional strings: falsy (`None` or `""`) falls back. -/
def pyOr (a b : Option String) : Option String :=
  match a with
  | none => b
  | some s => if s = "" then b else some s

/-- The night-temperature marker class tested by exact membership. -/
def nightMarker : String := "AppMonthCalendarDay_temperature__number_night__ggkzj"

/-- Lines 193-194: `li.get("class", []) if li else []`, then the substring
test `"climateStart" in cls` over the class list. -/
def isClimateStart (b : DayBlock) : Bool :=
  (b.liClasses.getD []).any (fun cls => containsSeg "climateStart".data cls.data)

/-- Line 211: `params = details.select(…) if details else []`. -/
def paramsOf (b : DayBlock) : List String :=
  match b.details with
  | some d => d.params
  | none => []

/-- The `param_at` closure: `params[index]` text or `None` past the end. -/
def param_at (params : List String) (i : Nat) : Option String := params.get? i

/-- Lines 197-231: build one day entry from a non-placeholder day block. -/
def mkDayRec (b : DayBlock) : DayRec :=
  let title := b.link.bind DayLink.ariaLabel
  let date_text := b.link.map DayLink.text
  let params := paramsOf b
  { title := pyOr title date_text
    label := date_text
    day_temp := (b.tempSpans.get? 0).map (fun sp => sp.text.trim)
    night_temp := (b.tempSpans.find? (fun sp => sp.classes.contains nightMarker)).map
      (fun sp => sp.text.trim)
    feels_like := _extract_temperature ((b.details.bind MonthDetails.feels).map String.trim)
    pressure := _extract_pressure (param_at params 0)
    humidity := _extract_humidity (param_at params 1)
    wind := _extract_wind (param_at params 2)
    water_temperature := param_at params 3 }

/-- The month page: the article container, when found, holds the day blocks
in document order. -/
structure MonthPage where
  article : Option (List DayBlock)
deriving DecidableEq

/-- The day-block loop of `parse_month`: placeholder rows are skipped by
`continue`, every other block appends one record. -/
def monthDays : List DayBlock → List DayRec
  | [] => []
  | b :: bs => if isClimateStart b then monthDays bs else mkDayRec b :: monthDays bs

/-- Extractor `parse_month`: missing article raises
`ValueError("Month block not found in the page")`; an empty result sequence
raises `ValueError("No day entries found in month view")`. -/
def parse_month (p : MonthPage) : Except String (List DayRec) :=
  match p.article with
  | none => Except.error "Month block not found in the page"
  | some bs =>
    let days := monthDays bs
    if days = [] then Except.error "No day entries found in month view"
    else Except.ok days

/-! ## Endpoint handlers (`src/main.py` lines 239-299) -/

/-- Outcome of the outbound `requests.get` + `raise_for_status`: the page,
or a `requests.RequestException` message. -/
inductive FetchResult (μ : Type) where
  | ok (markup : μ)
  | err (msg : String)
deriving DecidableEq

/-- What a handler returns: the payload with its `cached` flag, or an
`HTTPException(status_code, detail)`. -/
inductive Resp (α : Type) where
  | payload (data : α) (cached : Bool)
  | httpError (statusCode : Nat) (detail : String)
deriving DecidableEq

/-- The shared control flow of both endpoints (lines 246-267 and 277-299):
primary cache lookup at `t1`; on miss, fetch; fetch failure falls back to a
second `_get_cached` at `t2` then HTTP 502; parse failure falls back to a
third `_get_cached` at `t3` then HTTP 500; success stores at `t4`. -/
def handle_request {μ α : Type} (parse : μ → Except String α) (scope : String)
    (c : Cache α) (lat lon : Int) (t1 t2 t3 t4 : Nat) (fetch : FetchResult μ) :
    Resp α × Cache α :=
  match _get_cached c t1 scope lat lon with
  | some d => (Resp.payload d true, c)
  | none =>
    match fetch with
    | FetchResult.err e =>
      match _get_cached c t2 scope lat lon with
      | some d => (Resp.payload d true, c)
      | none => (Resp.httpError 502 ("Failed to fetch source page: " ++ e), c)
    | FetchResult.ok m =>
      match parse m with
      | Except.error e =>
        match _get_cached c t3 scope lat lon with
        | some d => (Resp.payload d true, c)
        | none => (Resp.httpError 500 e, c)
      | Except.ok d => (Resp.payload d false, _set_cached c t4 scope lat lon d)

/-- A value stored in the shared cache: either endpoint's record type. -/
inductive Payload where
  | current (r : WeatherRecord)
  | month (ds : List DayRec)
deriving DecidableEq

/-- Endpoint `GET /api/weather/total`: scope `"current"`, extractor `parse_weather`. -/
def get_weather_total (c : Cache Payload) (lat lon : Int) (t1 t2 t3 t4 : Nat)
    (fetch : FetchResult FactPage) : Resp Payload × Cache Payload :=
  handle_request (fun p => (parse_weather p).map Payload.current) "current"
    c lat lon t1 t2 t3 t4 fetch

/-- Endpoint `GET /api/weather/month`: scope `"month"`, extractor `parse_month`. -/
def get_weather_month (c : Cache Payload) (lat lon : Int) (t1 t2 t3 t4 : Nat)
    (fetch : FetchResult MonthPage) : Resp Payload × Cache Payload :=
  handle_request (fun p => (parse_month p).map Payload.month) "month"
    c lat lon t1 t2 t3 t4 fetch

/-! ## Specification-side definitions, written from the spec's words -/

/-- A maximal temperature token per the spec: an optional sign, one or more
digits, and the degree glyph. -/
def IsTempToken (r : List Char) : Prop :=
  ∃ sgn ds, (sgn = [] ∨ sgn = ['+'] ∨ sgn = ['-']) ∧ ds ≠ [] ∧
    (∀ c ∈ ds, c.isDigit = true) ∧ r = sgn ++ ds ++ ['°']

/-- Holds when the token occurs at the very front of the text. -/
def IsFrontOf (r l : List Char) : Prop := ∃ rest, l = r ++ rest

/-- The ordered condition rule table exactly as the spec lists it:
patterns of each rule, and the code it yields. -/
def condRules : List (List String × String) :=
  [ (["ясно"], "clear")
  , (["малооблачно", "переменная облачность"], "partly-cloudy")
  , (["облачно с прояснениями"], "cloudy-and-clear")
  , (["облачно"], "cloudy")
  , (["пасмурно"], "overcast")
  , (["небольшой дождь", "слабый дождь"], "light-rain")
  , (["дождь"], "rain")
  , (["ливень", "сильный дождь"], "heavy-rain")
  , (["гроза"], "thunderstorm")
  , (["небольшой снег", "слабый снег"], "light-snow")
  , (["снег"], "snow")
  , (["метель", "сильный снег"], "heavy-snow")
  , (["туман"], "fog")
  , (["мгла", "дымка"], "haze")
  , (["морось"], "drizzle")
  , (["град"], "hail") ]

/-- First-matching-rule-wins evaluation of a rule table; no rule matches
yields `"unknown"`. -/
def applyRules : List (List String × String) → List Char → String
  | [], _ => "unknown"
  | (ps, code) :: rest, t =>
    if ps.any (fun p => hasSub p t) then code else applyRules rest t

/-- An all-absent current-conditions record, used as an arbitrary payload. -/
def blankRecord : WeatherRecord :=
  ⟨none, none, none, none, none, none, none, none, none, none⟩

/-- A cache holding one entry for key `("current", 0, 0)` captured at
time 0 — expired at any lookup time past `CACHE_TTL`. -/
def expiredCurrentCache : Cache Payload :=
  _set_cached emptyCache 0 "current" 0 0 (Payload.current blankRecord)

/-! ## Helper lemmas -/

/-- A `_get_cached` miss stays a miss at any later clock reading: entries
only age, and both lookups apply the same freshness check. -/
theorem get_cached_none_mono {α : Type} (c : Cache α) {t t' : Nat} (h : t ≤ t')
    (scope : String) (lat lon : Int)
    (hm : _get_cached c t scope lat lon = none) :
    _get_cached c t' scope lat lon = none := by
  unfold _get_cached at hm ⊢
  cases hc : c ⟨scope, lat, lon⟩ with
  | none => rfl
  | some e =>
    by_cases hexp : t - e.ts > CACHE_TTL
    · have h2 : t' - e.ts > CACHE_TTL :=
        lt_of_lt_of_le hexp (Nat.sub_le_sub_right h _)
      simp [h2]
    · rw [hc] at hm
      simp [hexp] at hm

/-- The day-block loop keeps exactly the non-placeholder blocks, in order. -/
theorem monthDays_eq_filter (bs : List DayBlock) :
    monthDays bs = (bs.filter (fun b => !isClimateStart b)).map mkDayRec := by
  induction bs with
  | nil => rfl
  | cons b t ih =>
    cases h : isClimateStart b <;>
      simp [monthDays, h, List.filter_cons, ih]

/-- Splitting lemma: `takeWhile`/`dropWhile` on a list that starts with a `p`-true block
followed by a `p`-false element split exactly at that element. -/
theorem takeWhile_front {p : Char → Bool} (a : List Char) (c : Char) (rest : List Char)
    (ha : ∀ x ∈ a, p x = true) (hc : p c = false) :
    (a ++ c :: rest).takeWhile p = a ∧ (a ++ c :: rest).dropWhile p = c :: rest := by
  induction a with
  | nil => simp [List.takeWhile_cons, List.dropWhile_cons, hc]
  | cons x xs ih =>
    have hx : p x = true := ha x (by simp)
    have hxs : ∀ y ∈ xs, p y = true := fun y hy => ha y (by simp [hy])
    obtain ⟨h1, h2⟩ := ih hxs
    simp [List.takeWhile_cons, List.dropWhile_cons, hx, h1, h2]

/-- The head surviving `dropWhile` fails the predicate. -/
theorem dropWhile_head_not {p : Char → Bool} :
    ∀ (l : List Char) c t2, l.dropWhile p = c :: t2 → p c = false := by
  intro l
  induction l with
  | nil => intro c t2 h; simp at h
  | cons a as ih =>
    intro c t2 h
    by_cases hp : p a
    · rw [List.dropWhile_cons, if_pos hp] at h
      exact ih c t2 h
    · rw [List.dropWhile_cons, if_neg hp] at h
      cases h
      simp only [Bool.not_eq_true] at hp
      exact hp

/-- Soundness of one signless match attempt: a success decomposes the input
as a nonempty digit run, the degree glyph, and a remainder. -/
theorem digitsDeg_some {l r : List Char} (h : digitsDeg l = some r) :
    ∃ ds rest, ds ≠ [] ∧ (∀ c ∈ ds, c.isDigit = true) ∧
      r = ds ++ ['°'] ∧ l = ds ++ '°' :: rest := by
  unfold digitsDeg at h
  by_cases he : (l.takeWhile Char.isDigit).isEmpty = true
  · simp [he] at h
  · simp only [he, if_false, Bool.false_eq_true] at h
    split at h
    · next x tail heq =>
      refine ⟨l.takeWhile Char.isDigit, tail, ?_, ?_, (Option.some_inj.mp h).symm, ?_⟩
      · intro hnil
        rw [hnil] at he
        exact he rfl
      · intro c hc
        exact List.mem_takeWhile_imp hc
      · conv_lhs => rw [← List.takeWhile_append_dropWhile Char.isDigit l]
        rw [heq]
    · exact absurd h (by simp)

/-- Completeness of one signless match attempt: on an input that starts
with a nonempty digit run followed by the degree glyph, it succeeds with
exactly that token. -/
theorem digitsDeg_complete {ds : List Char} (rest : List Char)
    (hne : ds ≠ []) (hdig : ∀ c ∈ ds, c.isDigit = true) :
    digitsDeg (ds ++ '°' :: rest) = some (ds ++ ['°']) := by
  obtain ⟨h1, h2⟩ := takeWhile_front ds '°' rest hdig (by decide)
  unfold digitsDeg
  rw [h1, h2]
  cases ds with
  | nil => exact absurd rfl hne
  | cons x xs => rfl

/-- A temperature token is never the empty list. -/
theorem IsTempToken.ne_nil {r : List Char} (h : IsTempToken r) : r ≠ [] := by
  obtain ⟨sgn, ds, _, _, _, hr⟩ := h
  subst hr
  simp

/-- A digit character is not a sign character. -/
theorem digit_not_sign {c : Char} (h : c.isDigit = true) : ¬(c = '+' ∨ c = '-') := by
  rintro (rfl | rfl) <;> exact absurd h (by decide)

/-- Soundness of one anchored `[+-]?\d+°` attempt. -/
theorem matchTok_some {l r : List Char} (h : matchTok l = some r) :
    IsTempToken r ∧ IsFrontOf r l := by
  cases l with
  | nil => simp [matchTok] at h
  | cons c t =>
    simp only [matchTok] at h
    by_cases hc : c = '+' ∨ c = '-'
    · rw [if_pos hc] at h
      cases hd : digitsDeg t with
      | none => rw [hd] at h; simp at h
      | some m =>
        rw [hd] at h
        simp at h
        obtain ⟨ds, rest, hne, hdig, hm, ht⟩ := digitsDeg_some hd
        refine ⟨⟨[c], ds, ?_, hne, hdig, ?_⟩, ⟨rest, ?_⟩⟩
        · rcases hc with h1 | h1 <;> simp [h1]
        · rw [← h, hm]; simp
        · rw [ht, ← h, hm]; simp
    · rw [if_neg hc] at h
      obtain ⟨ds, rest, hne, hdig, hm, hl⟩ := digitsDeg_some h
      refine ⟨⟨[], ds, Or.inl rfl, hne, hdig, ?_⟩, ⟨rest, ?_⟩⟩
      · rw [hm]; simp
      · rw [hl, hm]; simp

/-- Completeness of one anchored attempt: any temperature token sitting at
the front of the input is found, verbatim. -/
theorem matchTok_complete {l r : List Char} (ht : IsTempToken r) (hf : IsFrontOf r l) :
    matchTok l = some r := by
  obtain ⟨sgn, ds, hs, hne, hdig, hr⟩ := ht
  obtain ⟨rest, hl⟩ := hf
  subst hr
  subst hl
  rcases hs with h0 | h0 | h0 <;> subst h0
  · cases ds with
    | nil => exact absurd rfl hne
    | cons d dt =>
      have hd : d.isDigit = true := hdig d (by simp)
      have hds : (([] ++ (d :: dt) ++ ['°']) ++ rest) = d :: (dt ++ '°' :: rest) := by simp
      have hcomp := digitsDeg_complete rest hne hdig
      rw [hds]
      simp only [matchTok]
      rw [if_neg (digit_not_sign hd)]
      have hds2 : (d :: (dt ++ '°' :: rest)) = (d :: dt) ++ '°' :: rest := by simp
      rw [hds2, hcomp]
      simp
  · have hds : ((['+'] ++ ds ++ ['°']) ++ rest) = '+' :: (ds ++ '°' :: rest) := by simp
    rw [hds]
    simp only [matchTok]
    rw [digitsDeg_complete rest hne hdig]
    simp
  · have hds : ((['-'] ++ ds ++ ['°']) ++ rest) = '-' :: (ds ++ '°' :: rest) := by simp
    rw [hds]
    simp only [matchTok]
    rw [digitsDeg_complete rest hne hdig]
    simp

/-- Characterization of the leftmost `[+-]?\d+°` search: a success is a
temperature token occurring at some position before which no token occurs,
and a failure means no token occurs anywhere. -/
theorem reSearchTemp_spec (l : List Char) :
    (∀ r, reSearchTemp l = some r →
      IsTempToken r ∧ ∃ i, IsFrontOf r (l.drop i) ∧
        ∀ j < i, ∀ r2, IsTempToken r2 → ¬ IsFrontOf r2 (l.drop j))
  ∧ (reSearchTemp l = none →
      ∀ i r, IsTempToken r → ¬ IsFrontOf r (l.drop i)) := by
  induction l with
  | nil =>
    constructor
    · intro r h; simp [reSearchTemp] at h
    · intro _ i r ht hf
      obtain ⟨rest, hr⟩ := hf
      rw [List.drop_nil] at hr
      exact ht.ne_nil (List.append_eq_nil.mp hr.symm).1
  | cons c t ih =>
    cases hm : matchTok (c :: t) with
    | some r0 =>
      constructor
      · intro r h
        simp only [reSearchTemp, hm, Option.some_inj] at h
        obtain ⟨ht0, hf0⟩ := matchTok_some hm
        subst h
        refine ⟨ht0, 0, by simpa using hf0, ?_⟩
        intro j hj
        omega
      · intro h
        simp only [reSearchTemp, hm] at h
        exact Option.noConfusion h
    | none =>
      have hstep : reSearchTemp (c :: t) = reSearchTemp t := by
        simp only [reSearchTemp, hm]
      constructor
      · intro r h
        rw [hstep] at h
        obtain ⟨ht1, i, hfi, hmin⟩ := ih.1 r h
        refine ⟨ht1, i + 1, by simpa [List.drop_succ_cons] using hfi, ?_⟩
        intro j hj r2 ht2 hf2
        cases j with
        | zero =>
          rw [List.drop_zero] at hf2
          rw [matchTok_complete ht2 hf2] at hm
          exact Option.noConfusion hm
        | succ j2 =>
          rw [List.drop_succ_cons] at hf2
          exact hmin j2 (by omega) r2 ht2 hf2
      · intro h i r ht hf
        rw [hstep] at h
        cases i with
        | zero =>
          rw [List.drop_zero] at hf
          rw [matchTok_complete ht hf] at hm
          exact Option.noConfusion hm
        | succ i2 =>
          rw [List.drop_succ_cons] at hf
          exact ih.2 h i2 r ht hf

/-- Characterization of the leftmost `\d+` search: a success is the
leftmost maximal nonempty digit run, a failure means the input has no
digit at all. -/
theorem reSearchDigits_spec (l : List Char) :
    (∀ r, reSearchDigits l = some r →
      r ≠ [] ∧ (∀ c ∈ r, c.isDigit = true) ∧
      ∃ pre post, l = pre ++ r ++ post ∧ (∀ c ∈ pre, c.isDigit = false) ∧
        (∀ c, post.head? = some c → c.isDigit = false))
  ∧ (reSearchDigits l = none → ∀ c ∈ l, c.isDigit = false) := by
  induction l with
  | nil =>
    constructor
    · intro r h; simp [reSearchDigits] at h
    · intro _ c hc; simp at hc
  | cons a t ih =>
    by_cases ha : a.isDigit = true
    · constructor
      · intro r h
        simp only [reSearchDigits, ha, if_true, Option.some_inj] at h
        subst h
        refine ⟨?_, ?_, [], (a :: t).dropWhile Char.isDigit, ?_, by simp, ?_⟩
        · rw [List.takeWhile_cons, if_pos ha]
          simp
        · intro c hc
          exact List.mem_takeWhile_imp hc
        · rw [List.nil_append, List.takeWhile_append_dropWhile]
        · intro c hc
          cases hd : (a :: t).dropWhile Char.isDigit with
          | nil => rw [hd] at hc; simp at hc
          | cons x xs =>
            rw [hd] at hc
            simp only [List.head?_cons, Option.some_inj] at hc
            exact hc ▸ dropWhile_head_not (a :: t) x xs hd
      · intro h
        simp [reSearchDigits, ha] at h
    · have ha2 : a.isDigit = false := by
        simp only [Bool.not_eq_true] at ha
        exact ha
      have hstep : reSearchDigits (a :: t) = reSearchDigits t := by
        simp only [reSearchDigits, ha2, Bool.false_eq_true, if_false]
      constructor
      · intro r h
        rw [hstep] at h
        obtain ⟨hne, hdig, pre, post, hdec, hpre, hpost⟩ := ih.1 r h
        refine ⟨hne, hdig, a :: pre, post, by simp [hdec], ?_, hpost⟩
        intro c hc
        rcases List.mem_cons.mp hc with rfl | hc2
        · exact ha2
        · exact hpre c hc2
      · intro h c hc
        rw [hstep] at h
        rcases List.mem_cons.mp hc with rfl | hc2
        · exact ha2
        · exact ih.2 h c hc2

/-! ## Claim theorems -/

/-- C3: cache round-trip — `store` then `lookup` whose elapsed age is within
the 15-minute time-to-live returns exactly the stored record; lookup after
the time-to-live has elapsed returns absent, as does lookup of a key with no
entry; and a second `store` for the same key fully replaces the prior entry. -/
theorem cache_round_trip {α : Type} (c : Cache α) (scope : String) (lat lon : Int)
    (t0 t1 : Nat) (d d2 : α) :
    (t1 - t0 ≤ CACHE_TTL →
      _get_cached (_set_cached c t0 scope lat lon d) t1 scope lat lon = some d)
  ∧ (t1 - t0 > CACHE_TTL →
      _get_cached (_set_cached c t0 scope lat lon d) t1 scope lat lon = none)
  ∧ (c ⟨scope, lat, lon⟩ = none → _get_cached c t1 scope lat lon = none)
  ∧ (_set_cached (_set_cached c t0 scope lat lon d) t1 scope lat lon d2) ⟨scope, lat, lon⟩
      = some ⟨t1, d2⟩ := by
  refine ⟨?_, ?_, ?_, ?_⟩
  · intro h
    unfold _get_cached _set_cached
    simp [Nat.not_lt.mpr h]
  · intro h
    unfold _get_cached _set_cached
    simp [h]
  · intro h
    unfold _get_cached
    rw [h]
  · unfold _set_cached
    simp

/-- Witness for C3 at concrete inputs: age exactly at the time-to-live is a
hit, one second past it is a miss, a never-stored key misses, and
re-storing replaces the entry wholesale. -/
theorem cache_round_trip_witness :
    _get_cached (_set_cached (emptyCache : Cache Nat) 0 "current" 1 2 7) 900 "current" 1 2 = some 7
  ∧ _get_cached (_set_cached (emptyCache : Cache Nat) 0 "current" 1 2 7) 901 "current" 1 2 = none
  ∧ _get_cached (emptyCache : Cache Nat) 5 "month" 1 2 = none
  ∧ (_set_cached (_set_cached (emptyCache : Cache Nat) 0 "current" 1 2 7) 10 "current" 1 2 8)
      ⟨"current", 1, 2⟩ = some ⟨10, 8⟩ :=
  ⟨(cache_round_trip emptyCache "current" 1 2 0 900 7 8).1 (by decide),
   (cache_round_trip emptyCache "current" 1 2 0 901 7 8).2.1 (by decide),
   (cache_round_trip emptyCache "month" 1 2 0 5 7 8).2.2.1 rfl,
   (cache_round_trip emptyCache "current" 1 2 0 10 7 8).2.2.2⟩

/-- C4: month extraction never includes a day block whose enclosing list
item carries the climate-start placeholder marker — the output is exactly
the non-placeholder blocks mapped to records — and an empty resulting
sequence (also when a placeholder block was the only block) is the terminal
"no entries found" error, never an empty success. -/
theorem month_placeholder_skipped_and_empty_errors (bs : List DayBlock) :
    parse_month ⟨some bs⟩ =
      (if (bs.filter (fun b => !isClimateStart b)) = [] then
        Except.error "No day entries found in month view"
      else Except.ok ((bs.filter (fun b => !isClimateStart b)).map mkDayRec)) := by
  simp only [parse_month, monthDays_eq_filter, List.map_eq_nil_iff]

/-- Witness for C4: a month page whose only day block is a climate-start
placeholder yields the "no entries found" error. -/
theorem month_placeholder_skipped_and_empty_errors_witness :
    parse_month ⟨some [⟨some ["calendar__item_climateStart_3Da_"], none, [], none⟩]⟩
      = Except.error "No day entries found in month view" := by
  rw [month_placeholder_skipped_and_empty_errors]
  rfl

/-- C5: when none of the three layered strategies locates the fact block —
the exact structural marker, the marker-substring container, and the
temperature-leaf ancestor are all absent — `parse_weather` fails with the
"block not found" structure error (in particular it returns no record at
all, absent-fielded or otherwise, and being a total function it cannot
crash). -/
theorem weather_block_not_found (p : FactPage)
    (h1 : p.byExactMarker = none) (h2 : p.bySubstringMarker = none)
    (h3 : p.byTempLeafParent = none) :
    parse_weather p = Except.error "Weather block not found in the page" := by
  unfold parse_weather findWrap
  rw [h1, h2, h3]

/-- Witness for C5: the page on which all three strategies fail. -/
theorem weather_block_not_found_witness :
    parse_weather ⟨none, none, none⟩
      = Except.error "Weather block not found in the page" :=
  weather_block_not_found ⟨none, none, none⟩ rfl rfl rfl

/-- C9: detail/parameter extraction is strictly positional and total — the
current-conditions record takes detail items 0,1,2,3 as wind, pressure,
humidity, water temperature, the month record takes params 0,1,2,3 as
pressure, humidity, wind, water temperature, an index at or beyond the
list's length yields absent rather than an error, and a missing containing
list behaves as the empty list. -/
theorem positional_details_total :
    (∀ (items : List String) (i : Nat), items.length ≤ i → detail_at items i = none)
  ∧ (∀ w : FactWrap,
      (mkWeatherRecord w).wind = _extract_wind (detail_at w.details_items 0)
    ∧ (mkWeatherRecord w).pressure = _extract_pressure (detail_at w.details_items 1)
    ∧ (mkWeatherRecord w).humidity = _extract_humidity (detail_at w.details_items 2)
    ∧ (mkWeatherRecord w).water_temperature = detail_at w.details_items 3)
  ∧ (∀ (params : List String) (i : Nat), params.length ≤ i → param_at params i = none)
  ∧ (∀ b : DayBlock,
      (mkDayRec b).pressure = _extract_pressure (param_at (paramsOf b) 0)
    ∧ (mkDayRec b).humidity = _extract_humidity (param_at (paramsOf b) 1)
    ∧ (mkDayRec b).wind = _extract_wind (param_at (paramsOf b) 2)
    ∧ (mkDayRec b).water_temperature = param_at (paramsOf b) 3)
  ∧ (∀ b : DayBlock, b.details = none → paramsOf b = []) := by
  refine ⟨?_, ?_, ?_, ?_, ?_⟩
  · intro items i h
    exact List.get?_eq_none.mpr h
  · intro w
    exact ⟨rfl, rfl, rfl, rfl⟩
  · intro params i h
    exact List.get?_eq_none.mpr h
  · intro b
    exact ⟨rfl, rfl, rfl, rfl⟩
  · intro b h
    unfold paramsOf
    rw [h]

/-- Witness for C9: a current-conditions block with a single detail item
yields that item as wind and absent pressure, humidity and water
temperature; a day block with no details panel has an empty params list. -/
theorem positional_details_total_witness :
    detail_at ["СЗ, 3 м/с"] 1 = none
  ∧ (mkWeatherRecord ⟨none, none, none, none, none, ["СЗ, 3 м/с"]⟩).wind
      = _extract_wind (detail_at ["СЗ, 3 м/с"] 0)
  ∧ param_at [] 0 = none
  ∧ paramsOf ⟨none, none, [], none⟩ = [] :=
  ⟨positional_details_total.1 ["СЗ, 3 м/с"] 1 (by decide),
   (positional_details_total.2.1 ⟨none, none, none, none, none, ["СЗ, 3 м/с"]⟩).1,
   positional_details_total.2.2.1 [] 0 (by decide),
   positional_details_total.2.2.2.2 ⟨none, none, [], none⟩ rfl⟩

/-- C10: in a sequential run, a primary cache miss followed by a fetch or
parse failure always surfaces HTTP 502 resp. HTTP 500 on both endpoints —
the post-failure fallback lookup applies the same freshness check to an
unmodified cache at a later clock reading, so it also misses — and no
cache-marked response is served at all in that situation, hence never an
expired entry. -/
theorem sequential_fallback_never_serves_stale
    (c : Cache Payload) (lat lon : Int) (t1 t2 t3 t4 : Nat)
    (h12 : t1 ≤ t2) (h13 : t1 ≤ t3)
    (hcur : _get_cached c t1 "current" lat lon = none)
    (hmon : _get_cached c t1 "month" lat lon = none) :
    (∀ e, (get_weather_total c lat lon t1 t2 t3 t4 (FetchResult.err e)).1
        = Resp.httpError 502 ("Failed to fetch source page: " ++ e))
  ∧ (∀ p e, parse_weather p = Except.error e →
      (get_weather_total c lat lon t1 t2 t3 t4 (FetchResult.ok p)).1
        = Resp.httpError 500 e)
  ∧ (∀ e, (get_weather_month c lat lon t1 t2 t3 t4 (FetchResult.err e)).1
        = Resp.httpError 502 ("Failed to fetch source page: " ++ e))
  ∧ (∀ p e, parse_month p = Except.error e →
      (get_weather_month c lat lon t1 t2 t3 t4 (FetchResult.ok p)).1
        = Resp.httpError 500 e)
  ∧ (∀ f d, (get_weather_total c lat lon t1 t2 t3 t4 f).1 ≠ Resp.payload d true)
  ∧ (∀ f d, (get_weather_month c lat lon t1 t2 t3 t4 f).1 ≠ Resp.payload d true) := by
  have hcur2 := get_cached_none_mono c h12 "current" lat lon hcur
  have hcur3 := get_cached_none_mono c h13 "current" lat lon hcur
  have hmon2 := get_cached_none_mono c h12 "month" lat lon hmon
  have hmon3 := get_cached_none_mono c h13 "month" lat lon hmon
  refine ⟨?_, ?_, ?_, ?_, ?_, ?_⟩
  · intro e
    simp [get_weather_total, handle_request, hcur, hcur2]
  · intro p e hp
    simp [get_weather_total, handle_request, hcur, hcur3, hp, Except.map]
  · intro e
    simp [get_weather_month, handle_request, hmon, hmon2]
  · intro p e hp
    simp [get_weather_month, handle_request, hmon, hmon3, hp, Except.map]
  · intro f d
    cases f with
    | err e => simp [get_weather_total, handle_request, hcur, hcur2]
    | ok m =>
      cases hp : parse_weather m with
      | error e => simp [get_weather_total, handle_request, hcur, hcur3, hp, Except.map]
      | ok r => simp [get_weather_total, handle_request, hcur, hp, Except.map]
  · intro f d
    cases f with
    | err e => simp [get_weather_month, handle_request, hmon, hmon2]
    | ok m =>
      cases hp : parse_month m with
      | error e => simp [get_weather_month, handle_request, hmon, hmon3, hp, Except.map]
      | ok r => simp [get_weather_month, handle_request, hmon, hp, Except.map]

/-- Witness for C10: on the empty cache, a failed fetch yields HTTP 502 and
a markup with no recognizable containers yields HTTP 500, on both
endpoints. -/
theorem sequential_fallback_never_serves_stale_witness :
    (get_weather_total emptyCache 0 0 0 1 2 3 (FetchResult.err "timeout")).1
      = Resp.httpError 502 "Failed to fetch source page: timeout"
  ∧ (get_weather_total emptyCache 0 0 0 1 2 3 (FetchResult.ok ⟨none, none, none⟩)).1
      = Resp.httpError 500 "Weather block not found in the page"
  ∧ (get_weather_month emptyCache 0 0 0 1 2 3 (FetchResult.err "timeout")).1
      = Resp.httpError 502 "Failed to fetch source page: timeout"
  ∧ (get_weather_month emptyCache 0 0 0 1 2 3 (FetchResult.ok ⟨none⟩)).1
      = Resp.httpError 500 "Month block not found in the page" :=
  have h := sequential_fallback_never_serves_stale emptyCache 0 0 0 1 2 3
    (by decide) (by decide) rfl rfl
  ⟨h.1 "timeout", h.2.1 ⟨none, none, none⟩ _ rfl, h.2.2.1 "timeout", h.2.2.2.1 ⟨none⟩ _ rfl⟩

/-- C7: on every present input the temperature extractor agrees with the
leftmost scan for an optional sign, one or more digits and the degree
glyph: a returned value is such a token, verbatim, occurring at a position
before which no such token occurs; absence means no such substring exists;
and on the spec's example it returns the token with sign and glyph kept. -/
theorem temperature_extractor_leftmost (s : String) :
    _extract_temperature (some s) = (reSearchTemp s.data).map String.mk
  ∧ (∀ r, _extract_temperature (some s) = some r →
      IsTempToken r.data ∧ ∃ i, IsFrontOf r.data (s.data.drop i) ∧
        ∀ j < i, ∀ r2, IsTempToken r2 → ¬ IsFrontOf r2 (s.data.drop j))
  ∧ (_extract_temperature (some s) = none →
      ∀ i r, IsTempToken r → ¬ IsFrontOf r (s.data.drop i))
  ∧ _extract_temperature (some "Ощущается как +3°") = some "+3°" := by
  have hbr : _extract_temperature (some s) = (reSearchTemp s.data).map String.mk := by
    by_cases hs : s = ""
    · subst hs; rfl
    · simp [_extract_temperature, hs]
  refine ⟨hbr, ?_, ?_, by decide⟩
  · intro r h
    rw [hbr] at h
    cases hm : reSearchTemp s.data with
    | none => rw [hm] at h; simp at h
    | some r0 =>
      rw [hm] at h
      simp at h
      obtain ⟨ht, i, hf, hmin⟩ := (reSearchTemp_spec s.data).1 r0 hm
      rw [← h]
      exact ⟨ht, i, hf, hmin⟩
  · intro h i r ht hf
    rw [hbr] at h
    cases hm : reSearchTemp s.data with
    | some r0 => rw [hm] at h; simp at h
    | none => exact (reSearchTemp_spec s.data).2 hm i r ht hf

/-- Witness for C7: the spec's example input, with the hypothesis-bearing
conjuncts instantiated at it. -/
theorem temperature_extractor_leftmost_witness :
    _extract_temperature (some "Ощущается как +3°") = some "+3°"
  ∧ (∀ i r, IsTempToken r → ¬ IsFrontOf r (("нет данных").data.drop i)) :=
  ⟨(temperature_extractor_leftmost "Ощущается как +3°").2.2.2,
   (temperature_extractor_leftmost "нет данных").2.2.1 (by decide)⟩

/-- C8: on every present input the pressure extractor returns the leftmost
maximal run of digits, digits only — surrounding text and unit suffixes
discarded — and absent exactly when the input has no digit; the humidity
extractor is the same function body; the spec's two examples evaluate as
stated. -/
theorem digit_run_extractors (s : String) :
    _extract_pressure (some s) = (reSearchDigits s.data).map String.mk
  ∧ (∀ t, _extract_humidity t = _extract_pressure t)
  ∧ (∀ r, _extract_pressure (some s) = some r →
      r.data ≠ [] ∧ (∀ c ∈ r.data, c.isDigit = true) ∧
      ∃ pre post, s.data = pre ++ r.data ++ post ∧ (∀ c ∈ pre, c.isDigit = false) ∧
        (∀ c, post.head? = some c → c.isDigit = false))
  ∧ (_extract_pressure (some s) = none ↔ ∀ c ∈ s.data, c.isDigit = false)
  ∧ _extract_pressure (some "758 мм рт. ст.") = some "758"
  ∧ _extract_humidity (some "65%") = some "65" := by
  have hbr : _extract_pressure (some s) = (reSearchDigits s.data).map String.mk := by
    by_cases hs : s = ""
    · subst hs; rfl
    · simp [_extract_pressure, hs]
  refine ⟨hbr, fun t => rfl, ?_, ?_, by decide, by decide⟩
  · intro r h
    rw [hbr] at h
    cases hm : reSearchDigits s.data with
    | none => rw [hm] at h; simp at h
    | some r0 =>
      rw [hm] at h
      simp at h
      obtain ⟨hne, hdig, pre, post, hdec, hpre, hpost⟩ := (reSearchDigits_spec s.data).1 r0 hm
      rw [← h]
      exact ⟨hne, hdig, pre, post, hdec, hpre, hpost⟩
  · rw [hbr]
    constructor
    · intro h c hc
      cases hm : reSearchDigits s.data with
      | none => exact (reSearchDigits_spec s.data).2 hm c hc
      | some r0 => rw [hm] at h; simp at h
    · intro h
      cases hm : reSearchDigits s.data with
      | none => rfl
      | some r0 =>
        obtain ⟨hne, hdig, pre, post, hdec, _, _⟩ := (reSearchDigits_spec s.data).1 r0 hm
        cases r0 with
        | nil => exact absurd rfl hne
        | cons c0 cs =>
          have hc0 : c0 ∈ s.data := by
            rw [hdec]
            simp
          exact absurd (hdig c0 (by simp)) (by simp [h c0 hc0])

/-- Witness for C8: the spec's examples, with the hypothesis-bearing
conjuncts instantiated at them. -/
theorem digit_run_extractors_witness :
    _extract_pressure (some "758 мм рт. ст.") = some "758"
  ∧ _extract_humidity (some "65%") = some "65"
  ∧ _extract_pressure (some "нет данных") = none :=
  ⟨(digit_run_extractors "758 мм рт. ст.").2.2.2.2.1,
   (digit_run_extractors "65%").2.2.2.2.2,
   (digit_run_extractors "нет данных").2.2.2.1.mpr (by decide)⟩

/-- C6 counterexample: the wind helper, which applies no pattern, maps the
present input `some ""` to an absent output — the source's falsy test
`if not text` treats the empty string like `None` — so "a present input
that matches yields a present output" fails as stated. -/
theorem wind_empty_string_counterexample :
    (some "" : Option String) ≠ none ∧ _extract_wind (some "") = none :=
  ⟨by decide, rfl⟩

/-- C6 (amended): absent input always yields absent output; the three
pattern-based helpers return absent exactly when the input is absent or
contains no match of their pattern; the wind helper, which has no pattern,
returns absent exactly when the input is absent or the empty string, and
otherwise returns the trimmed input. -/
theorem normalizer_absent_iff :
    (_extract_temperature none = none ∧ _extract_wind none = none ∧
      _extract_pressure none = none ∧ _extract_humidity none = none)
  ∧ (∀ s : String, _extract_temperature (some s) = none ↔
      ∀ i r, IsTempToken r → ¬ IsFrontOf r (s.data.drop i))
  ∧ (∀ s : String, _extract_pressure (some s) = none ↔ ∀ c ∈ s.data, c.isDigit = false)
  ∧ (∀ s : String, _extract_humidity (some s) = none ↔ ∀ c ∈ s.data, c.isDigit = false)
  ∧ (∀ s : String, (_extract_wind (some s) = none ↔ s = "")
      ∧ (s ≠ "" → _extract_wind (some s) = some s.trim)) := by
  have hbrT : ∀ s : String,
      _extract_temperature (some s) = (reSearchTemp s.data).map String.mk := by
    intro s
    by_cases hs : s = ""
    · subst hs; rfl
    · simp [_extract_temperature, hs]
  have hbrP : ∀ s : String,
      _extract_pressure (some s) = (reSearchDigits s.data).map String.mk := by
    intro s
    by_cases hs : s = ""
    · subst hs; rfl
    · simp [_extract_pressure, hs]
  have hP : ∀ s : String,
      _extract_pressure (some s) = none ↔ ∀ c ∈ s.data, c.isDigit = false := by
    intro s
    rw [hbrP s]
    constructor
    · intro h c hc
      cases hm : reSearchDigits s.data with
      | none => exact (reSearchDigits_spec s.data).2 hm c hc
      | some r0 => rw [hm] at h; simp at h
    · intro h
      cases hm : reSearchDigits s.data with
      | none => rfl
      | some r0 =>
        obtain ⟨hne, hdig, pre, post, hdec, _, _⟩ := (reSearchDigits_spec s.data).1 r0 hm
        cases r0 with
        | nil => exact absurd rfl hne
        | cons c0 cs =>
          have hc0 : c0 ∈ s.data := by
            rw [hdec]
            simp
          exact absurd (hdig c0 (by simp)) (by simp [h c0 hc0])
  refine ⟨⟨rfl, rfl, rfl, rfl⟩, ?_, hP, fun s => hP s, ?_⟩
  · intro s
    rw [hbrT s]
    constructor
    · intro h i r ht hf
      cases hm : reSearchTemp s.data with
      | none => exact (reSearchTemp_spec s.data).2 hm i r ht hf
      | some r0 => rw [hm] at h; simp at h
    · intro h
      cases hm : reSearchTemp s.data with
      | none => rfl
      | some r0 =>
        obtain ⟨ht, i, hf, _⟩ := (reSearchTemp_spec s.data).1 r0 hm
        exact absurd hf (h i r0 ht)
  · intro s
    constructor
    · by_cases hs : s = ""
      · subst hs
        exact ⟨fun _ => rfl, fun h => rfl⟩
      · constructor
        · intro h
          simp [_extract_wind, hs] at h
        · intro h
          exact absurd h hs
    · intro h
      simp [_extract_wind, h]

/-- Witness for C6's amended theorem: concrete instances of each
hypothesis-bearing conjunct. -/
theorem normalizer_absent_iff_witness :
    _extract_temperature none = none
  ∧ _extract_pressure (some "нет данных") = none
  ∧ _extract_wind (some " СЗ 3 м/с ") = some (" СЗ 3 м/с ".trim) :=
  ⟨normalizer_absent_iff.1.1,
   (normalizer_absent_iff.2.2.1 "нет данных").mpr (by decide),
   (normalizer_absent_iff.2.2.2.2 " СЗ 3 м/с ").2 (by decide)⟩

/-- The source's `elif` chain computes exactly the first-match-wins
evaluation of the spec's ordered rule table. -/
theorem condCode_eq_applyRules (t : List Char) : condCode t = applyRules condRules t := by
  simp only [condCode, condRules, applyRules, List.any_cons, List.any_nil, Bool.or_false]

/-- First-match-wins evaluation always lands in the rule codes plus the
`"unknown"` sentinel. -/
theorem applyRules_mem (rules : List (List String × String)) (t : List Char) :
    applyRules rules t ∈ rules.map Prod.snd ++ ["unknown"] := by
  induction rules with
  | nil => simp [applyRules]
  | cons r rest ih =>
    cases r with
    | mk ps code =>
      simp only [applyRules, List.map_cons, List.cons_append, List.mem_cons]
      split
      · exact Or.inl rfl
      · exact Or.inr ih

/-- C2 counterexample: `some ""` is a non-absent input matching no rule
(every rule pattern fails the substring test against the empty text), yet
the mapper returns `none` rather than `some "unknown"` — the source's
falsy test `if not condition_text` treats the empty string like `None`. -/
theorem condition_empty_string_counterexample :
    (some "" : Option String) ≠ none
  ∧ condRules.all (fun r => r.1.all (fun p => !hasSub p [])) = true
  ∧ _map_condition_to_code (some "") = none
  ∧ _map_condition_to_code (some "") ≠ some "unknown" :=
  ⟨by decide, by decide, rfl, by decide⟩

/-- C2 (amended): every non-absent, non-empty input string maps to exactly
one of the 16 fixed codes or `"unknown"`, decided by lowercase substring
matching with first-match-wins in the fixed priority order of `condRules`;
a non-empty string matching no rule maps to `"unknown"` (the table's
default); an absent or empty input yields an absent code (not
`"unknown"`); and a text containing both `облачно` and `пасмурно` resolves
to the earlier rule's code. -/
theorem condition_mapper_total (s : String) :
    (s ≠ "" → _map_condition_to_code (some s)
      = some (applyRules condRules (s.data.map pyLower)))
  ∧ (∀ t, applyRules condRules t ∈
      ["clear", "partly-cloudy", "cloudy-and-clear", "cloudy", "overcast", "light-rain",
       "rain", "heavy-rain", "thunderstorm", "light-snow", "snow", "heavy-snow", "fog",
       "haze", "drizzle", "hail", "unknown"])
  ∧ _map_condition_to_code none = none
  ∧ _map_condition_to_code (some "") = none
  ∧ _map_condition_to_code (some "Облачно, пасмурно") = some "cloudy" := by
  refine ⟨?_, ?_, rfl, rfl, by decide⟩
  · intro hs
    simp only [_map_condition_to_code, hs, if_false]
    rw [condCode_eq_applyRules]
  · intro t
    have h := applyRules_mem condRules t
    simpa [condRules] using h

/-- Witness for C2's amended theorem: a clear-sky text maps to `"clear"`. -/
theorem condition_mapper_total_witness :
    _map_condition_to_code (some "Ясно") = some (applyRules condRules ("Ясно".data.map pyLower))
  ∧ _map_condition_to_code (some "Ясно") = some "clear" :=
  have h := (condition_mapper_total "Ясно").1 (by decide)
  ⟨h, h.trans (by decide)⟩

/-- C1 (code evaluated at the failing input): the cache holds an entry for
key `("current", 0, 0)` captured at time 0; at time 1000 — past the
15-minute time-to-live — the fetch fails, and the handler surfaces
HTTP 502 instead of serving the stored entry: the fallback lookup in the
`except` branch is the freshness-checking `_get_cached`, so an aged entry
is not served "regardless of age". -/
theorem fetch_failure_with_expired_entry_yields_502 :
    (expiredCurrentCache ⟨"current", 0, 0⟩).isSome = true
  ∧ (get_weather_total expiredCurrentCache 0 0 1000 1000 1000 1000
      (FetchResult.err "boom")).1
      = Resp.httpError 502 "Failed to fetch source page: boom" := by
  exact ⟨by decide, by decide⟩

end YaWeather
